import Mathlib

/-!
Verification of the loxone-custom-audioserver core against its specification.

This file is a shallow embedding of the TypeScript sources:

* `src/backend/zonemanager.ts`   — zone registry, track merges, command dispatch to adapters
* `src/backend/backendFactory.ts`— adapter-kind resolution (`createBackend`)
* `src/backend/Beolink/backend.ts` (shipped unnamed) — the Beolink adapter's group command
* `src/http/broadcastEvent.ts`   — websocket fan-out
* `src/http/handlers/requesthandler.ts` — the wire-protocol command dispatcher

Modelling conventions:

* JSON values are modelled structurally by the `Json` inductive; `JSON.stringify`
  output is represented by the `Json` value it serialises (object fields in the
  insertion order of the source object literal; properties whose value is the JS
  `undefined` are omitted, as `JSON.stringify` omits them).
* Side effects (logger calls, adapter invocations, websocket broadcasts) are
  returned as an explicit `Effect` list in source order.
* A JavaScript exception (e.g. a `TypeError` from dereferencing `undefined`) is
  modelled by `JsResult.thrown`; in the running system such an exception inside
  an `async` function surfaces as a rejected promise.
* `process.env` is modelled as a function `String → Option String`; a missing
  variable is `none`.  JS string truthiness (`!s` is true for `undefined` and
  `""`) is `jsTruthy`.
-/

/-- Structural JSON values (numbers restricted to integers; every numeric
literal appearing in the modelled sources is an integer). -/
inductive Json where
  | null
  | bool (b : Bool)
  | num (n : Int)
  | str (s : String)
  | arr (elems : List Json)
  | obj (fields : List (String × Json))
deriving Repr

/-- JS string truthiness of a possibly-missing string: `undefined` and `""` are
falsy, every other string is truthy. -/
def jsTruthy : Option String → Bool
  | none => false
  | some s => s ≠ ""

/-- The characters of a string split on a separator character — JS
`s.split(sep)` for a single-character separator (the only form the modelled
sources use: `/` for paths, `,` for id lists). -/
def splitCharList (sep : Char) : List Char → List (List Char)
  | [] => [[]]
  | c :: cs =>
      let rest := splitCharList sep cs
      if c = sep then [] :: rest
      else
        match rest with
        | [] => [[c]]
        | seg :: segs => (c :: seg) :: segs

/-- JS `s.split(sep)` for a single-character separator. -/
def jsSplit (s : String) (sep : Char) : List String :=
  (splitCharList sep s.toList).map (fun cs => String.mk cs)

/-- `pattern` is a prefix of the character list. -/
def listStartsWith : List Char → List Char → Bool
  | _, [] => true
  | [], _ :: _ => false
  | c :: cs, p :: ps => c == p && listStartsWith cs ps

/-- JS `s.startsWith(pattern)`. -/
def jsStartsWith (s pattern : String) : Bool :=
  listStartsWith s.toList pattern.toList

/-- Outcome of running a (possibly-throwing) JS function body. -/
inductive JsResult (α : Type) where
  | ok (a : α)
  | thrown (msg : String)
deriving Repr

/-- The closed set of adapter kinds registered in `backendMap`
(`src/backend/backendFactory.ts`). -/
inductive BackendKind where
  | beolink
  | sonos
  | example
deriving Repr, DecidableEq

/-- A constructed adapter instance: `new BackendClass(ip, playerId)` stores the
ip and the player id (`src/backend/backendBaseClass.ts`). -/
structure BackendInstance where
  kind : BackendKind
  ip : String
  playerid : String
deriving Repr, DecidableEq

/-- Observable side effects of the modelled functions, in source order. -/
inductive Effect where
  | logError (msg : String)
  | logWarn (msg : String)
  | logInfo (msg : String)
  | logDebug (msg : String)
  /-- `broadcastEvent(JSON.stringify payload)` triggered by the zone registry. -/
  | broadcast (payload : Json)
  /-- `backendInstance.sendCommand(command, param)` on a zone's adapter. -/
  | adapterCommand (inst : BackendInstance) (command param : String)
  /-- `backendInstance.sendGroupCommand(command, type, masterId, ...memberIds)`. -/
  | adapterGroupCommand (inst : BackendInstance) (command type masterId : String)
      (memberIds : List String)
  /-- A fire-and-forget `sendCommandToZone(playerId, command, param)` call made
  from inside an adapter. -/
  | zoneCommand (playerId command param : String)
  /-- The `updateZoneGroup()` call (hard-coded `audio_sync_event` broadcast). -/
  | groupSyncBroadcast

/-- Mutable playback state of a zone — the `Track` interface of
`src/backend/zonemanager.ts`.  The optional interface fields
`title`/`album`/`artist` are `Option String`; the `players` array of
`{playerid}` objects is modelled by the list of its `playerid` strings. -/
structure Track where
  playerid : String
  coverurl : String
  station : String
  audiotype : Int
  audiopath : String
  mode : String
  plrepeat : Int
  plshuffle : Int
  duration : Int
  time : Int
  power : String
  volume : Int
  title : Option String
  album : Option String
  artist : Option String
  players : List String
deriving Repr, DecidableEq

/-- `Partial<Track>`: a field is `none` when the property is absent from the
partial update and `some v` when it is supplied with value `v`.  For the
optional metadata fields `some none` models a property supplied with the JS
value `undefined`. -/
structure PartialTrack where
  playerid : Option String := none
  coverurl : Option String := none
  station : Option String := none
  audiotype : Option Int := none
  audiopath : Option String := none
  mode : Option String := none
  plrepeat : Option Int := none
  plshuffle : Option Int := none
  duration : Option Int := none
  time : Option Int := none
  power : Option String := none
  volume : Option Int := none
  title : Option (Option String) := none
  album : Option (Option String) := none
  artist : Option (Option String) := none
  players : Option (List String) := none
deriving Repr

/-- The per-zone `player` record built by `setupZones`. -/
structure PlayerRec where
  uuid : String
  playerid : String
  clienttype : Int
  enabled : Bool
  internalname : String
  max_volume : Int
  name : String
  upnpmode : Int
  upnprelay : Int
  backend : String
  ip : String
  backendInstance : Option BackendInstance
deriving Repr, DecidableEq

/-- One entry of the in-memory `zone` map: `{ player, track }`. -/
structure ZoneEntry where
  player : PlayerRec
  track : Track
deriving Repr, DecidableEq

/-- The in-memory zone registry (`const zone: Zone = {}`), modelled as an
association list keyed by player id. -/
abbrev Registry := List (String × ZoneEntry)

/-- One player of the music configuration consumed by `setupZones`. -/
structure Player where
  uuid : String
  playerid : String
  backend : String
  ip : String
deriving Repr

/-- The parts of the process-wide `config` object the modelled code reads. -/
structure Config where
  /-- `config.audioserver?.paired` -/
  paired : Bool
  /-- `config.miniserver.mac` -/
  miniserverMac : String
  /-- `config.audioserver?.musicCRC` (`none` models JS `undefined`) -/
  musicCRC : Option String
  /-- hex modulus of the process-start RSA key (`rsaKey` is generated at
  module load, so its components are a process-level input) -/
  rsaPubHex : String
  /-- public exponent of that key -/
  rsaExp : Int

/-- Key lookup in the zone registry (`zone[playerId]`). -/
def zoneFind : Registry → String → Option ZoneEntry
  | [], _ => none
  | (k, v) :: rest, id => if k = id then some v else zoneFind rest id

/-- Key update in the zone registry (`zone[playerId] = ...`). -/
def insertZone : Registry → String → ZoneEntry → Registry
  | [], id, e => [(id, e)]
  | (k, v) :: rest, id, e =>
      if k = id then (id, e) :: rest else (k, v) :: insertZone rest id e

/-- `createBackend` of `src/backend/backendFactory.ts`: looks the name up in
the closed `backendMap` and constructs the class, returning `null` (here
`none`) when the name is unknown. -/
def createBackend (backendName ip playerId : String) : Option BackendInstance :=
  match backendName with
  | "BackendBeolink" => some { kind := .beolink, ip := ip, playerid := playerId }
  | "BackendSonos" => some { kind := .sonos, ip := ip, playerid := playerId }
  | "BackendExample" => some { kind := .example, ip := ip, playerid := playerId }
  | _ => none

/-- The `track` literal installed for each zone by `setupZones`. -/
def initialTrack (playerId : String) : Track :=
  { playerid := playerId
    coverurl := ""
    station := ""
    audiotype := 2
    audiopath := ""
    mode := "stop"
    plrepeat := 0
    plshuffle := 0
    duration := 0
    time := 0
    power := "on"
    volume := 0
    title := none
    album := none
    artist := none
    players := [playerId] }

/-- The body of the per-player loop of `setupZones`
(`src/backend/zonemanager.ts`, lines 84–140): reads
`ZONE_<id>_BACKEND` / `ZONE_<id>_IP` from the environment, falls back to
`BackendExample` / `127.0.0.1` when either is falsy, and installs the zone
record with `backendInstance: backend ? createBackend(backend, ip, playerId) :
null`.  The subsequent `initialize()` call does not modify the registry record
and is outside this model. -/
def setupZone (env : String → Option String) (st : Registry) (player : Player) : Registry :=
  let playerId := player.playerid
  let backend0 := env ("ZONE_" ++ playerId ++ "_BACKEND")
  let ip0 := env ("ZONE_" ++ playerId ++ "_IP")
  let backend := if !jsTruthy backend0 || !jsTruthy ip0 then "BackendExample" else backend0.getD ""
  let ip := if !jsTruthy backend0 || !jsTruthy ip0 then "127.0.0.1" else ip0.getD ""
  insertZone st playerId
    { player :=
        { uuid := player.uuid
          playerid := player.playerid
          clienttype := 0
          enabled := true
          internalname := "zone-" ++ playerId
          max_volume := 100
          name := "zone-" ++ playerId
          upnpmode := 0
          upnprelay := 0
          backend := backend
          ip := ip
          backendInstance := if backend ≠ "" then createBackend backend ip playerId else none }
      track := initialTrack playerId }

/-- `setupZones`: initialises one zone per configured player (the
music-configuration and pairing guards return early without touching the
registry and are outside the modelled state). -/
def setupZones (env : String → Option String) (players : List Player) : Registry :=
  players.foldl (setupZone env) []

/-- `getZoneById` (`src/backend/zonemanager.ts`, lines 208–223): logs a
pairing error when the audioserver is not paired, logs and returns the `[]`
not-found sentinel (modelled `none`) when the id is unknown, and otherwise
returns the zone. -/
def getZoneById (cfg : Config) (st : Registry) (playerId : String) :
    List Effect × Option ZoneEntry :=
  let pairedLogs : List Effect :=
    if !cfg.paired then
      [.logError "[ZoneManager] !! AudioServer not Paired. NO Zones initialized !!"]
    else []
  match zoneFind st playerId with
  | none =>
      (pairedLogs ++ [.logError ("[ZoneManager] No zone found for player ID: " ++ playerId)],
       none)
  | some z => (pairedLogs, some z)

/-- `sendCommandToZone` (`src/backend/zonemanager.ts`, lines 153–166).  When
`getZoneById` returned its `[]` sentinel, the source evaluates
`zone.player.backendInstance`: `[].player` is `undefined`, so the second
property access throws a `TypeError` (modelled `JsResult.thrown`) and the
"no backend instance" log branch is never reached.  A successful adapter call
is recorded as an `adapterCommand` effect (the adapter's own failures are
caught and logged by the source's `try`/`catch` and cannot escape). -/
def sendCommandToZone (cfg : Config) (st : Registry) (playerId command param : String) :
    List Effect × JsResult Unit :=
  let (logs, zopt) := getZoneById cfg st playerId
  match zopt with
  | none =>
      (logs, .thrown "TypeError: Cannot read properties of undefined (reading backendInstance)")
  | some z =>
      match z.player.backendInstance with
      | some b => (logs ++ [.adapterCommand b command param], .ok ())
      | none =>
          (logs ++ [.logError ("[ZoneManager] No backend instance found for player ID: "
            ++ playerId)], .ok ())

/-- `sendGroupCommandToZone` (`src/backend/zonemanager.ts`, lines 180–198):
splits the comma-separated id list, takes the first id as master and the rest
as additional ids, looks the master up, and invokes the master zone's
adapter's `sendGroupCommand`.  The source's `zone ? ... : null` guard never
fires on lookup failure because the `[]` sentinel is truthy, so the
`zone.player.backendInstance` access throws exactly as in
`sendCommandToZone`. -/
def sendGroupCommandToZone (cfg : Config) (st : Registry)
    (command type Group : String) : List Effect × JsResult Unit :=
  let idArray := jsSplit Group ','
  let masterID := idArray.headD ""
  let additionalIDs := idArray.drop 1
  let (logs, zopt) := getZoneById cfg st masterID
  match zopt with
  | none =>
      (logs, .thrown "TypeError: Cannot read properties of undefined (reading backendInstance)")
  | some z =>
      match z.player.backendInstance with
      | some b =>
          (logs ++ [.adapterGroupCommand b command type masterID additionalIDs], .ok ())
      | none =>
          (logs ++ [.logError ("[ZoneManager] No backend instance found for player ID: "
            ++ masterID)], .ok ())

/-- The spread merge `{ ...existingZone.track, ...newTrackInfo }`: every
property supplied by the partial update overwrites the existing one, every
other property is kept. -/
def mergeTrack (t : Track) (p : PartialTrack) : Track :=
  { playerid := p.playerid.getD t.playerid
    coverurl := p.coverurl.getD t.coverurl
    station := p.station.getD t.station
    audiotype := p.audiotype.getD t.audiotype
    audiopath := p.audiopath.getD t.audiopath
    mode := p.mode.getD t.mode
    plrepeat := p.plrepeat.getD t.plrepeat
    plshuffle := p.plshuffle.getD t.plshuffle
    duration := p.duration.getD t.duration
    time := p.time.getD t.time
    power := p.power.getD t.power
    volume := p.volume.getD t.volume
    title := p.title.getD t.title
    album := p.album.getD t.album
    artist := p.artist.getD t.artist
    players := p.players.getD t.players }

/-- Serialisation of a `Track` as `JSON.stringify` renders it: the thirteen
fields installed at setup in literal order, the `players` array as
`{playerid}` objects, and the optional metadata fields present only when
defined (they are appended on first assignment by a merge). -/
def trackToJson (t : Track) : Json :=
  .obj ([("playerid", .str t.playerid)
       , ("coverurl", .str t.coverurl)
       , ("station", .str t.station)
       , ("audiotype", .num t.audiotype)
       , ("audiopath", .str t.audiopath)
       , ("mode", .str t.mode)
       , ("plrepeat", .num t.plrepeat)
       , ("plshuffle", .num t.plshuffle)
       , ("duration", .num t.duration)
       , ("time", .num t.time)
       , ("power", .str t.power)
       , ("volume", .num t.volume)
       , ("players", .arr (t.players.map (fun p => .obj [("playerid", .str p)])))]
       ++ (match t.title with | some s => [("title", Json.str s)] | none => [])
       ++ (match t.album with | some s => [("album", Json.str s)] | none => [])
       ++ (match t.artist with | some s => [("artist", Json.str s)] | none => []))

/-- `updateZoneTrack` (`src/backend/zonemanager.ts`, lines 233–254): fails
(returning `false`, with no state change and no broadcast) when the zone is
unknown; otherwise installs the spread merge, broadcasts
`{"audio_event":[track]}` and returns `true`. -/
def updateZoneTrack (st : Registry) (playerId : String) (newTrackInfo : PartialTrack) :
    Registry × List Effect × Bool :=
  match zoneFind st playerId with
  | none =>
      (st, [.logError ("[ZoneManager] Cannot update track: No zone found for player ID: "
        ++ playerId)], false)
  | some existingZone =>
      let merged := mergeTrack existingZone.track newTrackInfo
      (insertZone st playerId { existingZone with track := merged },
       [.logDebug ("[ZoneManager] Updated track for player ID: " ++ playerId),
        .broadcast (.obj [("audio_event", .arr [trackToJson merged])])],
       true)

/-- One registered websocket connection of the broadcast hub.  `tag`
identifies the connection object; `connected` is its `connection.connected`
flag. -/
structure WsConnection where
  tag : Nat
  connected : Bool
deriving Repr, DecidableEq

/-- `broadcastEvent` (`src/http/broadcastEvent.ts`, lines 31–39): iterates the
connection set, sends the message verbatim to each connection whose
`connected` flag is set, and silently skips the rest.  The returned list is
the sequence of `sendUTF` deliveries; the function is total (no error is
raised for a closed connection). -/
def broadcastEvent (conns : List WsConnection) (eventMessage : String) :
    List (Nat × String) :=
  conns.foldl (fun acc c => if c.connected then acc ++ [(c.tag, eventMessage)] else acc) []

/-- The member loop of `BackendBeolink.sendGroupCommand`: for each additional
id, a `groupJoin` command is sent via `sendCommandToZone` unless the id equals
the adapter's own `this.playerid`, which is logged and skipped. -/
def beolinkGroupJoinLoop (selfPid : String) : List String → List Effect
  | [] => []
  | id :: rest =>
      (if id ≠ selfPid then
        [.logInfo ("[BeoLink] Adding member to group: " ++ id),
         .zoneCommand id "groupJoin" selfPid]
      else
        [.logInfo ("[BeoLink] Skipping master ID: " ++ id)])
      ++ beolinkGroupJoinLoop selfPid rest

/-- `BackendBeolink.sendGroupCommand` (Beolink adapter, lines 191–205): logs
the group creation, runs the member loop, then calls `updateZoneGroup()`
(modelled as the opaque `groupSyncBroadcast` effect; its hard-coded sync event
is outside the claims about this method). -/
def beolinkSendGroupCommand (self : BackendInstance)
    (command type playerid : String) (additionalIDs : List String) : List Effect :=
  .logInfo ("[BeoLink] Creating New Beolink Group. Master: " ++ self.playerid
      ++ " | GroupMembers: " ++ String.intercalate ", " additionalIDs)
    :: (beolinkGroupJoinLoop self.playerid additionalIDs ++ [.groupSyncBroadcast])

/-- Projection of the broadcast payloads out of an effect list. -/
def broadcastsOf (effects : List Effect) : List Json :=
  effects.filterMap fun
    | .broadcast j => some j
    | _ => none

/-- Projection of the adapter `sendGroupCommand` invocations out of an effect
list. -/
def groupCallsOf (effects : List Effect) :
    List (BackendInstance × String × String × String × List String) :=
  effects.filterMap fun
    | .adapterGroupCommand b c t m ids => some (b, c, t, m, ids)
    | _ => none

/-- Projection of the `sendCommandToZone` invocations out of an effect
list. -/
def zoneCommandsOf (effects : List Effect) : List (String × String × String) :=
  effects.filterMap fun
    | .zoneCommand a b c => some (a, b, c)
    | _ => none

/-- Literal command-string constants of `src/http/handlers/requesthandler.ts`. -/
def COMMAND_SECURE_INFO_PAIRING : String := "secure/info/pairing"

def COMMAND_SECURE_HELLO : String := "secure/hello"

def COMMAND_SECURE_AUTHENTICATE : String := "secure/authenticate"

def COMMAND_SECURE_INIT : String := "secure/init"

def COMMAND_MINISERVER_TIME : String := "audio/cfg/miniservertime"

def COMMAND_AUDIO_CFG_READY : String := "audio/cfg/ready"

def COMMAND_AUDIO_CFG_GETCONFIG : String := "audio/cfg/getconfig"

def COMMAND_AUDIO_CFG_SETCONFIG : String := "audio/cfg/setconfig"

def AUDIO_GROUP : String := "audio/cfg/dgroup"

/-- The verb alternatives of `AUDIO_COMMANDS_PATTERN`. -/
def audioCommandWords : List String :=
  ["on", "off", "play", "resume", "pause", "queueminus", "queueplus",
   "volume", "repeat", "shuffle", "test"]

/-- `s` is a nonempty run of decimal digits (one `\d+` regex segment). -/
def isDigitSeg (s : String) : Bool :=
  s ≠ "" && s.toList.all Char.isDigit

/-- Does the given predicate sequence match the path segments starting here
(each predicate consuming one whole segment)? -/
def matchesHere : List (String → Bool) → List String → Bool
  | [], _ => true
  | _ :: _, [] => false
  | p :: ps, s :: segs => p s && matchesHere ps segs

/-- Test of a regex of the shape `(?:^|/)p1/p2/…/pn(?:/|$)` against a URL's
`/`-separated segments: the pattern pieces contain no `/`, so the regex
matches iff some consecutive run of whole segments satisfies the
predicates. -/
def hasSeq (ps : List (String → Bool)) : List String → Bool
  | [] => matchesHere ps []
  | s :: segs => matchesHere ps (s :: segs) || hasSeq ps segs

/-- As `matchesHere`, but requiring at least one further segment after the
match (a regex ending in a mandatory `/`). -/
def matchesHereMore : List (String → Bool) → List String → Bool
  | [], segs => !segs.isEmpty
  | _ :: _, [] => false
  | p :: ps, s :: segs => p s && matchesHereMore ps segs

/-- Test of a regex of the shape `(?:^|/)p1/…/pn/` (mandatory trailing `/`)
against the segment list. -/
def hasSeqMore (ps : List (String → Bool)) : List String → Bool
  | [] => false
  | s :: segs => matchesHereMore ps (s :: segs) || hasSeqMore ps segs

/-- `new RegExp(`(?:^|/)${AUDIO_COMMANDS_PATTERN}(?:/|$)`).test(url)`:
somewhere in the path, a literal `audio` segment, a numeric zone id segment,
and one of the fixed command verbs. -/
def audioCommandsTest (url : String) : Bool :=
  hasSeq [(· == "audio"), isDigitSeg, (audioCommandWords.contains ·)] (jsSplit url '/')

/-- Regex test for `audio/cfg/getkey`. -/
def getKeyTest (url : String) : Bool :=
  hasSeq [(· == "audio"), (· == "cfg"), (· == "getkey")] (jsSplit url '/')

/-- Regex test for `audio/cfg/getmediafolder`. -/
def getMediaFolderTest (url : String) : Bool :=
  hasSeq [(· == "audio"), (· == "cfg"), (· == "getmediafolder")] (jsSplit url '/')

/-- Regex test for `audio/cfg/getplaylists2/lms`. -/
def getPlaylistsTest (url : String) : Bool :=
  hasSeq [(· == "audio"), (· == "cfg"), (· == "getplaylists2"), (· == "lms")] (jsSplit url '/')

/-- Regex test for `audio/cfg/getradios`. -/
def getRadiosTest (url : String) : Bool :=
  hasSeq [(· == "audio"), (· == "cfg"), (· == "getradios")] (jsSplit url '/')

/-- Regex test for `audio/cfg/getroomfavs/` (note the mandatory trailing
slash in the source regex). -/
def getRoomFavsTest (url : String) : Bool :=
  hasSeqMore [(· == "audio"), (· == "cfg"), (· == "getroomfavs")] (jsSplit url '/')

/-- Regex test for `audio/cfg/getsyncedplayers`. -/
def getSyncedPlayersTest (url : String) : Bool :=
  hasSeq [(· == "audio"), (· == "cfg"), (· == "getsyncedplayers")] (jsSplit url '/')

/-- Regex test for `audio/\d+/status`. -/
def playerStatusTest (url : String) : Bool :=
  hasSeq [(· == "audio"), isDigitSeg, (· == "status")] (jsSplit url '/')

/-- Regex test for `audio/\d+/getqueue`. -/
def getQueueTest (url : String) : Bool :=
  hasSeq [(· == "audio"), isDigitSeg, (· == "getqueue")] (jsSplit url '/')

/-- A response of the request handler at the wire: either a string that is
the `JSON.stringify` of an object (modelled by its fields in order), or a
plain non-JSON text string returned verbatim. -/
inductive HttpResponse where
  | json (fields : List (String × Json))
  | text (s : String)
deriving Repr

/-- `response(url, name, result)`
(`src/http/handlers/requesthandler.ts`, lines 219–225): the protocol envelope
`{ "<name>_result": result, command: url }`. -/
def response (url name : String) (result : Json) : HttpResponse :=
  .json [(name ++ "_result", result), ("command", .str url)]

/-- The first character of `s` is an ASCII lowercase letter
(the `/^[a-z]/` test in `emptyCommand`). -/
def startsLower (s : String) : Bool :=
  match s.toList with
  | [] => false
  | c :: _ => 'a' ≤ c && c ≤ 'z'

/-- The downward scan of `emptyCommand`: the last segment whose first
character is a lowercase letter, if any. -/
def findLastLower : List String → Option String
  | [] => none
  | s :: rest =>
      match findLastLower rest with
      | some t => some t
      | none => if startsLower s then some s else none

/-- `emptyCommand(url, rsp)` (lines 208–216): wraps `rsp` in an envelope named
after the last lowercase-starting path segment.  When no segment qualifies the
source's loop falls through without a `return`, so the JS function yields
`undefined` — modelled as `none`. -/
def emptyCommand (url : String) (rsp : Json) : Option HttpResponse :=
  match findLastLower (jsSplit url '/') with
  | some nm => some (response url nm rsp)
  | none => none

/-- `unknownCommand(url)` (lines 202–205): logs the unprocessed request (log
effects of the dispatcher are not part of the modelled response value) and
returns `emptyCommand(url, null)`. -/
def unknownCommand (url : String) : Option HttpResponse :=
  emptyCommand url .null

/-- JS `parseInt(s)` as it appears on the wire after `JSON.stringify`:
an optional sign followed by a leading digit run parses to that integer;
otherwise the result is `NaN`, which `JSON.stringify` renders as `null`. -/
def jsParseIntJson (s : String) : Json :=
  let cs := s.toList.dropWhile (fun c => c == ' ' || c == '\t' || c == '\n' || c == '\r')
  let signed : Bool × List Char :=
    match cs with
    | '-' :: t => (true, t)
    | '+' :: t => (false, t)
    | t => (false, t)
  let ds := signed.2.takeWhile Char.isDigit
  if ds.isEmpty then .null
  else
    let n : Int := ds.foldl (fun acc c => acc * 10 + ((c.toNat - 48 : Nat) : Int)) 0
    .num (if signed.1 then -n else n)

/-- JS unary `+s` (`Number` coercion) as it appears on the wire: `undefined`
gives `NaN` (rendered `null`), the empty/whitespace string gives `0`, a signed
run of digits gives that integer; other strings give `NaN` (rendered `null`;
non-integer numeric literals do not occur in the modelled requests). -/
def jsNumberJson (o : Option String) : Json :=
  match o with
  | none => .null
  | some s =>
      let cs := s.toList.filter (fun c => !(c == ' ' || c == '\t' || c == '\n' || c == '\r'))
      match cs with
      | [] => .num 0
      | _ =>
          let signed : Bool × List Char :=
            match cs with
            | '-' :: t => (true, t)
            | '+' :: t => (false, t)
            | t => (false, t)
          if signed.2 ≠ [] && signed.2.all Char.isDigit then
            let n : Int := signed.2.foldl (fun acc c => acc * 10 + ((c.toNat - 48 : Nat) : Int)) 0
            .num (if signed.1 then -n else n)
          else .null

/-- `audioCfgReady` (lines 33–35). -/
def audioCfgReady (url : String) : Option HttpResponse :=
  emptyCommand url (.obj [("session", .num 547541322864)])

/-- `audioCfgGetKey` (lines 37–50): the process RSA key's public components. -/
def audioCfgGetKey (cfg : Config) (url : String) : Option HttpResponse :=
  emptyCommand url (.arr [.obj [("pubkey", .str cfg.rsaPubHex), ("exp", .num cfg.rsaExp)]])

/-- The `{ crc32, extensions: [] }` payload shared by the getconfig and
setconfig routes; when `musicCRC` is `undefined` the stringified object omits
the `crc32` property. -/
def getConfigPayload (cfg : Config) : Json :=
  .obj ((match cfg.musicCRC with
         | some s => [("crc32", Json.str s)]
         | none => []) ++ [("extensions", .arr [])])

/-- `audioGetStatus` (lines 52–56): `[ , zoneId ] = url.split('/')`, then the
zone's track (an unknown id makes `getZoneById(...).track` the JS `undefined`,
rendered `null` inside the array). -/
def audioGetStatus (st : Registry) (url : String) : Option HttpResponse :=
  let zoneId := (jsSplit url '/').getD 1 ""
  some (response url "status"
    (.arr [match zoneFind st zoneId with
           | some z => trackToJson z.track
           | none => .null]))

/-- `audioGetQueue` (lines 58–88): fixed stub queue payload. -/
def audioGetQueue (url : String) : Option HttpResponse :=
  some (response url "getqueue"
    (.arr [.obj
      [("id", .num 1)
      , ("items", .arr [.obj
          [("album", .str "")
          , ("artist", .str "")
          , ("audiopath", .str "linein:504F94F042A3#1000001")
          , ("audiotype", .num 3)
          , ("coverurl", .str "http://10.7.10.151:7091/imgcache/?item=linein&icontype=8&enabled=1&viaproxy=170ab4fc-0261-9bac-ffffc581ef707fce")
          , ("duration", .num 0)
          , ("icontype", .num 8)
          , ("qindex", .num 0)
          , ("station", .str "")
          , ("title", .str "SatRadio")
          , ("unique_id", .str "linein:504F94F042A3#1000001")
          , ("user", .str "")]])
      , ("shuffle", .bool false)
      , ("start", .num 0)
      , ("totalitems", .num 1)]]))

/-- `audioCfgGetRoomFavs` (lines 90–146): stub favourites payload with
`id: parseInt(zoneId)` for `zoneId = url.split('/')[3]`. -/
def audioCfgGetRoomFavs (url : String) : Option HttpResponse :=
  let zoneId := (jsSplit url '/').getD 3 ""
  some (response url "getroomfavs"
    (.arr [.obj
      [("id", jsParseIntJson zoneId)
      , ("totalitems", .num 3)
      , ("start", .num 0)
      , ("items", .arr
          [.obj
            [("type", .str "tunein")
            , ("slot", .num 1)
            , ("audiopath", .str "s6717")
            , ("coverurl", .str "http://192.168.1.222:7092/http://192.168.1.222:9000/imageproxy/http://cdn-profiles.tunein.com/s6717/images/logoq.jpg/image.jpg")
            , ("id", .str "s6717")
            , ("name", .str "Veronica")
            , ("title", .str "Radio Veronica 91.6 (Classic Hits)")
            , ("artist", .str "")
            , ("album", .str "")
            , ("station", .str "")
            , ("contentType", .str "ZoneFavorites")
            , ("mediaType", .str "favorites")]
          , .obj
            [("type", .str "local")
            , ("slot", .num 2)
            , ("audiopath", .str "WyJ1cmw6ZmlsZSUzQSUyRiUyRiUyRnRtcCUyRkJlb3NvdW5kJTI1MjBHcm9lbi5tM3UiLDEwMDAwMDJd")
            , ("id", .str "WyJ1cmw6ZmlsZSUzQSUyRiUyRiUyRnRtcCUyRkJlb3NvdW5kJTI1MjBHcm9lbi5tM3UiLDEwMDAwMDJd")
            , ("coverurl", .str "http://192.168.1.35:7091/img/groen.png")
            , ("name", .str "Beosound Groen")
            , ("title", .str "Apple Music")
            , ("artist", .str "")
            , ("album", .str "")
            , ("station", .str "")
            , ("contentType", .str "ZoneFavorites")
            , ("mediaType", .str "favorites")]
          , .obj
            [("type", .str "local")
            , ("slot", .num 3)
            , ("audiopath", .str "WyJ1cmw6ZmlsZSUzQSUyRiUyRiUyRnRtcCUyRkJlb3NvdW5kJTI1MjBHcm9lbi5tM3UiLDEwMDAwMDJd")
            , ("id", .str "WyJ1cmw6ZmlsZSUzQSUyRiUyRiUyRnRtcCUyRkJlb3NvdW5kJTI1MjBHcm9lbi5tM3UiLDEwMDAwMDJd")
            , ("coverurl", .str "http://192.168.1.35:7091/img/lucifer.png")
            , ("name", .str "Lucifers Playlist")
            , ("title", .str "Apple Music")
            , ("artist", .str "")
            , ("album", .str "")
            , ("station", .str "")
            , ("contentType", .str "ZoneFavorites")
            , ("mediaType", .str "favorites")]])]]))

/-- `audioCfgGetRadios` (lines 148–163): fixed stub radio payload. -/
def audioCfgGetRadios (url : String) : Option HttpResponse :=
  some (response url "getradios"
    (.arr
      [.obj
        [("cmd", .str "presets")
        , ("name", .str "Radio Favorieten")
        , ("icon", .str "http://10.7.10.151:7091/imgcache/?item=radiomusic&viaproxy=170ab4fc-0261-9bac-ffffc581ef707fce")
        , ("root", .str "start")]
      , .obj
        [("cmd", .str "all")
        , ("name", .str "Alles")
        , ("icon", .str "http://10.7.10.151:7091/imgcache/?item=radioworld&viaproxy=170ab4fc-0261-9bac-ffffc581ef707fce")
        , ("root", .str "start")]]))

/-- `audioCfgGetMediaFolder` (lines 165–179):
`[ , , , requestId, start ] = url.split('/')`; a `requestId` that is JS
`undefined` is omitted from the stringified object. -/
def audioCfgGetMediaFolder (url : String) : Option HttpResponse :=
  let segs := jsSplit url '/'
  some (response url "getmediafolder"
    (.arr [.obj
      ((match segs.get? 3 with
        | some requestId => [("id", Json.str requestId)]
        | none => []) ++
       [("totalitems", .num 0)
       , ("start", jsNumberJson (segs.get? 4))
       , ("items", .arr [])])]))

/-- `audioCfgGetPlaylists` (lines 181–195):
`[ , , , , , id, start ] = url.split('/')`. -/
def audioCfgGetPlaylists (url : String) : Option HttpResponse :=
  let segs := jsSplit url '/'
  some (response url "getplaylists2"
    (.arr [.obj
      ((match segs.get? 5 with
        | some id => [("id", Json.str id)]
        | none => []) ++
       [("totalitems", .num 0)
       , ("start", jsNumberJson (segs.get? 6))
       , ("items", .arr [])])]))

/-- `audioCfgGetSyncedPlayers` (lines 197–199). -/
def audioCfgGetSyncedPlayers (url : String) : Option HttpResponse :=
  emptyCommand url (.arr [])

/-- `handleSecureHello` (lines 228–231): a hand-built JSON string echoing the
fourth path segment as `public_key` (an absent segment is interpolated by the
template literal as the text `undefined`). -/
def handleSecureHello (trimmedUrl : String) : HttpResponse :=
  let pubKey := ((jsSplit trimmedUrl '/').get? 3).getD "undefined"
  .json [("command", .str COMMAND_SECURE_HELLO), ("error", .num 0),
         ("public_key", .str pubKey)]

/-- `handleSecureAuthenticate` (lines 233–235). -/
def handleSecureAuthenticate (url : String) : Option HttpResponse :=
  emptyCommand url (.str "authentication successful")

/-- `handleSecureInit` (lines 238–241): fixed JWT stub response. -/
def handleSecureInit : HttpResponse :=
  .json [("command", .str "secure/init"), ("error", .num 0),
         ("jwt", .str "eyJhbGciOiJSUzI1NiIsInR5cCI6IkpXVCJ9.ewogICJleHAiOiAxNjQwNjEwMTQ0LAogICJpYXQiOiAxNjQwNjEwMDg0LAogICJzZXNzaW9uX3Rva2VuIjogIjhXYWh3QWZVTHdFUWNlOVl1MHFJRTlMN1FNa1hGSGJpME05Y2g5dktjZ1lBclBQb2pYSHBTaU5jcTBmVDNscUwiLAogICJzdWIiOiAic2VjdXJlLXNlc3Npb24taW5pdC1zdWNjZXNzIgp9.Zd5M55YPirdugqlGr7u6iB-kM_oFqnvMnpxL8gj58vF2L4ocpSY6S8OB_4f8LeIB2AIYikN5U6R0UALJ3Oahxa0gq9qKDoNrjC7-Q8wAe1rEhDbvdWtaRzmgiHnivrz0cNsyeYGBX8c5Ix6pLI8URGjR1Ox2lbxBt_pVZ-MyEvhVNSJ0-DttclqIAgr_24tVmwe6lleT5eKyBoQVAcGJP-3LSdORKckHTCRw6aaf6sOQ7AtK37SXgnHB6J4g2wErvyw29mMAmDTbR8vZUCmTxgnmhbrks02AZITLaDeGAYTlSASWDSl84L9wkWOWk0pufZIGG0zcXgL8EoWD8cw_fIhbh-LXODEY5251u0DlVtaI_6J6o2j8jy_WvsSqKh-sqqy-ygScwPkLgFua7GNlppaHUGsFaEg0rVdLvVAiIV3mbOGnis1RuWcTWY9iuPVxFTODxkOZNRgZttBb_NFa8lQPJKwwhA33YC1hJ6DE3xEC2rvc4LGE400nLKnELNKpFNsom07JFSQQq8NV3Z1lzTksa8ANdXrV080J8x0c1Bt4dcUyx3lzFE8XG3DsLXCnL2YsJ9ik2jdSBZL8grnoQjqvJWaX3j47P0VM-jaMICVb6QcVP-nNB7k5n1qQGASsbkhcB1nffzE_wLooUe4iLxJQ2dkCM1n7ngXDF6HK0_A")]

/-- `handleLoxoneCommand` (lines 244–336): the dispatcher's `switch (true)`
chain, case for case in source order.  Only the returned response value is
modelled here; the fire-and-forget calls of the `dgroup` route
(`sendGroupCommandToZone`) and of the zone-command pattern route
(`sendCommandToZone`) are `async` invocations whose promises are not awaited,
so they cannot influence the returned value — they are modelled by the
standalone definitions above.  The `setconfig` route returns the same
`emptyCommand` payload from both its `try` and its `catch` path (its
`processAudioServerConfig` side effect on the config store is outside the
modelled state). -/
def handleLoxoneCommand (cfg : Config) (st : Registry) (trimmedUrl : String) :
    Option HttpResponse :=
  if trimmedUrl == "" then
    unknownCommand ""
  else if trimmedUrl == COMMAND_MINISERVER_TIME then
    some (.text ("Handled Miniserver time request with URL: " ++ trimmedUrl))
  else if trimmedUrl == COMMAND_SECURE_INFO_PAIRING then
    some (.json [("command", .str COMMAND_SECURE_INFO_PAIRING), ("error", .num (-84)),
                 ("master", .str cfg.miniserverMac), ("peers", .arr [])])
  else if jsStartsWith trimmedUrl COMMAND_SECURE_HELLO then
    some (handleSecureHello trimmedUrl)
  else if jsStartsWith trimmedUrl COMMAND_SECURE_AUTHENTICATE then
    handleSecureAuthenticate trimmedUrl
  else if jsStartsWith trimmedUrl COMMAND_SECURE_INIT then
    some handleSecureInit
  else if jsStartsWith trimmedUrl COMMAND_AUDIO_CFG_READY then
    audioCfgReady trimmedUrl
  else if jsStartsWith trimmedUrl COMMAND_AUDIO_CFG_GETCONFIG then
    emptyCommand trimmedUrl (getConfigPayload cfg)
  else if jsStartsWith trimmedUrl COMMAND_AUDIO_CFG_SETCONFIG then
    emptyCommand trimmedUrl (getConfigPayload cfg)
  else if jsStartsWith trimmedUrl AUDIO_GROUP then
    emptyCommand trimmedUrl (.arr [])
  else if audioCommandsTest trimmedUrl then
    some (.json [("dgroup_update_result", .obj [("id", .str "cc131c8a-a368-f320-da6d-2568b7314e8c")]),
                 ("command", .str "{trimmedUrl}")])
  else if getKeyTest trimmedUrl then
    audioCfgGetKey cfg trimmedUrl
  else if getMediaFolderTest trimmedUrl then
    audioCfgGetMediaFolder trimmedUrl
  else if getPlaylistsTest trimmedUrl then
    audioCfgGetPlaylists trimmedUrl
  else if getRadiosTest trimmedUrl then
    audioCfgGetRadios trimmedUrl
  else if getRoomFavsTest trimmedUrl then
    audioCfgGetRoomFavs trimmedUrl
  else if getSyncedPlayersTest trimmedUrl then
    audioCfgGetSyncedPlayers trimmedUrl
  else if playerStatusTest trimmedUrl then
    audioGetStatus st trimmedUrl
  else if getQueueTest trimmedUrl then
    audioGetQueue trimmedUrl
  else
    unknownCommand trimmedUrl

/-- The routes whose responses bypass `response`/`emptyCommand` and are built
as hand-written strings: the miniservertime text, the pairing/hello/init
secure stubs, and the zone-command pattern route's hard-coded
`dgroup_update_result` string. -/
def handcraftedRoute (url : String) : Bool :=
  url == COMMAND_MINISERVER_TIME
  || url == COMMAND_SECURE_INFO_PAIRING
  || jsStartsWith url COMMAND_SECURE_HELLO
  || jsStartsWith url COMMAND_SECURE_INIT
  || audioCommandsTest url

/-- Disjunction of every literal and pattern route condition of the
dispatcher, in source order; `false` means the request falls through to the
`unknownCommand` fallback. -/
def routeMatched (url : String) : Bool :=
  url == COMMAND_MINISERVER_TIME
  || url == COMMAND_SECURE_INFO_PAIRING
  || jsStartsWith url COMMAND_SECURE_HELLO
  || jsStartsWith url COMMAND_SECURE_AUTHENTICATE
  || jsStartsWith url COMMAND_SECURE_INIT
  || jsStartsWith url COMMAND_AUDIO_CFG_READY
  || jsStartsWith url COMMAND_AUDIO_CFG_GETCONFIG
  || jsStartsWith url COMMAND_AUDIO_CFG_SETCONFIG
  || jsStartsWith url AUDIO_GROUP
  || audioCommandsTest url
  || getKeyTest url
  || getMediaFolderTest url
  || getPlaylistsTest url
  || getRadiosTest url
  || getRoomFavsTest url
  || getSyncedPlayersTest url
  || playerStatusTest url
  || getQueueTest url

/-- The protocol envelope contract for a response to request `url`: a JSON
object with exactly one `"<name>_result"` field holding the payload and a
`"command"` field echoing the request string verbatim. -/
def IsEnvelopeFor (url : String) (r : Option HttpResponse) : Prop :=
  ∃ nm payload, r = some (.json [(nm ++ "_result", payload), ("command", .str url)])

/-- Some path segment of `url` starts with a lowercase letter. -/
def hasLowerSeg (url : String) : Bool :=
  (jsSplit url '/').any startsLower

/-! ### Concrete fixtures used by witnesses and counterexamples -/

/-- A paired configuration with arbitrary but fixed collaborator inputs. -/
def cfgA : Config :=
  { paired := true
    miniserverMac := "50:4F:94:FF:00:01"
    musicCRC := some "abcd1234"
    rsaPubHex := "00"
    rsaExp := 65537 }

/-- A Beolink adapter instance owned by zone 14. -/
def beoInst14 : BackendInstance :=
  { kind := .beolink, ip := "192.168.1.50", playerid := "14" }

/-- The player record of zone 14. -/
def playerRec14 : PlayerRec :=
  { uuid := "uuid-14"
    playerid := "14"
    clienttype := 0
    enabled := true
    internalname := "zone-14"
    max_volume := 100
    name := "zone-14"
    upnpmode := 0
    upnprelay := 0
    backend := "BackendBeolink"
    ip := "192.168.1.50"
    backendInstance := some beoInst14 }

/-- Zone 14 with an existing track `{volume: 10, mode: "pause"}`. -/
def entry14 : ZoneEntry :=
  { player := playerRec14
    track := { initialTrack "14" with volume := 10, mode := "pause" } }

/-- A registry holding exactly zone 14. -/
def registry14 : Registry := [("14", entry14)]

/-- The partial update `{volume: 20}` of the specification's example. -/
def partialVolume20 : PartialTrack := { volume := some 20 }

/-- The empty partial update `{}`. -/
def emptyPartial : PartialTrack := {}

/-- An environment configuring zone 1 with an adapter kind that is not in
`backendMap`. -/
def envUnknownKind : String → Option String := fun k =>
  if k = "ZONE_1_BACKEND" then some "BackendUnknown"
  else if k = "ZONE_1_IP" then some "10.0.0.5"
  else none

/-- An environment configuring zone 1 with the Beolink adapter kind. -/
def envBeolinkKind : String → Option String := fun k =>
  if k = "ZONE_1_BACKEND" then some "BackendBeolink"
  else if k = "ZONE_1_IP" then some "10.0.0.9"
  else none

/-- A configured player with id 1. -/
def player1 : Player := { uuid := "uuid-1", playerid := "1", backend := "", ip := "" }

/-- The adapter-kind names registered in `backendMap`. -/
def knownBackendNames : List String := ["BackendBeolink", "BackendSonos", "BackendExample"]

/-- The environment either leaves zone `pid` to the stub fallback (backend or
ip falsy) or names a kind registered in `backendMap`. -/
def EffectiveKindKnown (env : String → Option String) (pid : String) : Prop :=
  jsTruthy (env ("ZONE_" ++ pid ++ "_BACKEND")) = true →
  jsTruthy (env ("ZONE_" ++ pid ++ "_IP")) = true →
  (env ("ZONE_" ++ pid ++ "_BACKEND")).getD "" ∈ knownBackendNames

/-! ### Helper lemmas -/

theorem zoneFind_insertZone (st : Registry) (id id2 : String) (e : ZoneEntry) :
    zoneFind (insertZone st id e) id2 = if id2 = id then some e else zoneFind st id2 := by
  induction st with
  | nil =>
      by_cases h : id2 = id
      · subst h; simp [insertZone, zoneFind]
      · have h2 : ¬ id = id2 := fun hc => h hc.symm
        simp [insertZone, zoneFind, h, h2]
  | cons kv rest ih =>
      obtain ⟨k, v⟩ := kv
      by_cases hk : k = id
      · subst hk
        by_cases h : id2 = k
        · subst h; simp [insertZone, zoneFind]
        · have h2 : ¬ k = id2 := fun hc => h hc.symm
          simp [insertZone, zoneFind, h, h2]
      · by_cases hk2 : k = id2
        · subst hk2
          have h : ¬ k = id := hk
          simp [insertZone, zoneFind, hk, h]
        · by_cases h : id2 = id
          · subst h; simp [insertZone, zoneFind, hk, hk2, ih]
          · simp [insertZone, zoneFind, hk, hk2, h, ih]

theorem findLastLower_isSome_of_any (l : List String) (h : l.any startsLower = true) :
    ∃ nm, findLastLower l = some nm := by
  induction l with
  | nil => simp [List.any] at h
  | cons s rest ih =>
      simp only [List.any_cons, Bool.or_eq_true] at h
      cases hr : findLastLower rest with
      | some t => exact ⟨t, by simp [findLastLower, hr]⟩
      | none =>
          rcases h with h | h
          · exact ⟨s, by simp [findLastLower, hr, h]⟩
          · obtain ⟨t, ht⟩ := ih h
            rw [ht] at hr
            cases hr

theorem envelope_of_emptyCommand (url : String) (p : Json) (r : HttpResponse)
    (h : emptyCommand url p = some r) : IsEnvelopeFor url (some r) := by
  unfold emptyCommand at h
  cases hf : findLastLower (jsSplit url '/') with
  | none => rw [hf] at h; cases h
  | some nm =>
      rw [hf] at h
      exact ⟨nm, p, by cases h; rfl⟩

theorem envelope_of_response (url nm : String) (p : Json) (r : HttpResponse)
    (h : some (response url nm p) = some r) : IsEnvelopeFor url (some r) :=
  ⟨nm, p, by cases h; rfl⟩

theorem zoneCommandsOf_join_loop (selfPid : String) (ids : List String) :
    zoneCommandsOf (beolinkGroupJoinLoop selfPid ids) =
      (ids.filter (fun id => id ≠ selfPid)).map (fun id => (id, "groupJoin", selfPid)) := by
  induction ids with
  | nil => rfl
  | cons id rest ih =>
      by_cases h : id = selfPid <;>
        simp [beolinkGroupJoinLoop, zoneCommandsOf, List.filterMap_cons, h] <;>
        simpa [zoneCommandsOf] using ih

theorem broadcastEvent_go (msg : String) (conns : List WsConnection) :
    ∀ acc : List (Nat × String),
      conns.foldl (fun a c => if c.connected then a ++ [(c.tag, msg)] else a) acc =
        acc ++ (conns.filter (fun c => c.connected)).map (fun c => (c.tag, msg)) := by
  induction conns with
  | nil => intro acc; simp
  | cons c rest ih =>
      intro acc
      by_cases h : c.connected <;> simp [List.foldl_cons, h, ih]

/-! ### Claim theorems -/

/-- Claim C2: for every zone present in the registry and every partial track
update, `updateZoneTrack` succeeds and installs the field-level merge: each
field supplied by the partial update takes its new value and every field not
supplied keeps its existing value (for `{volume: 10, mode: "pause"}` updated
with `{volume: 20}` the result is `{volume: 20, mode: "pause"}`, other fields
untouched — see the witness). -/
theorem updateZoneTrack_merges_fields (st : Registry) (id : String) (e : ZoneEntry)
    (p : PartialTrack) (h : zoneFind st id = some e) :
    (updateZoneTrack st id p).2.2 = true ∧
    zoneFind (updateZoneTrack st id p).1 id = some { e with track := mergeTrack e.track p } ∧
    (mergeTrack e.track p).playerid = p.playerid.getD e.track.playerid ∧
    (mergeTrack e.track p).coverurl = p.coverurl.getD e.track.coverurl ∧
    (mergeTrack e.track p).station = p.station.getD e.track.station ∧
    (mergeTrack e.track p).audiotype = p.audiotype.getD e.track.audiotype ∧
    (mergeTrack e.track p).audiopath = p.audiopath.getD e.track.audiopath ∧
    (mergeTrack e.track p).mode = p.mode.getD e.track.mode ∧
    (mergeTrack e.track p).plrepeat = p.plrepeat.getD e.track.plrepeat ∧
    (mergeTrack e.track p).plshuffle = p.plshuffle.getD e.track.plshuffle ∧
    (mergeTrack e.track p).duration = p.duration.getD e.track.duration ∧
    (mergeTrack e.track p).time = p.time.getD e.track.time ∧
    (mergeTrack e.track p).power = p.power.getD e.track.power ∧
    (mergeTrack e.track p).volume = p.volume.getD e.track.volume ∧
    (mergeTrack e.track p).title = p.title.getD e.track.title ∧
    (mergeTrack e.track p).album = p.album.getD e.track.album ∧
    (mergeTrack e.track p).artist = p.artist.getD e.track.artist ∧
    (mergeTrack e.track p).players = p.players.getD e.track.players := by
  refine ⟨?_, ?_, rfl, rfl, rfl, rfl, rfl, rfl, rfl, rfl, rfl, rfl, rfl, rfl, rfl, rfl,
    rfl, rfl⟩
  · simp [updateZoneTrack, h]
  · simp [updateZoneTrack, h, zoneFind_insertZone]

/-- Witness for C2, the specification's own example: zone 14 holds
`{volume: 10, mode: "pause"}` and the partial update `{volume: 20}` yields
`{volume: 20, mode: "pause"}` with success. -/
theorem updateZoneTrack_merges_fields_witness :
    (updateZoneTrack registry14 "14" partialVolume20).2.2 = true ∧
    zoneFind (updateZoneTrack registry14 "14" partialVolume20).1 "14" =
      some { entry14 with track := mergeTrack entry14.track partialVolume20 } ∧
    (mergeTrack entry14.track partialVolume20).playerid = "14" ∧
    (mergeTrack entry14.track partialVolume20).coverurl = "" ∧
    (mergeTrack entry14.track partialVolume20).station = "" ∧
    (mergeTrack entry14.track partialVolume20).audiotype = 2 ∧
    (mergeTrack entry14.track partialVolume20).audiopath = "" ∧
    (mergeTrack entry14.track partialVolume20).mode = "pause" ∧
    (mergeTrack entry14.track partialVolume20).plrepeat = 0 ∧
    (mergeTrack entry14.track partialVolume20).plshuffle = 0 ∧
    (mergeTrack entry14.track partialVolume20).duration = 0 ∧
    (mergeTrack entry14.track partialVolume20).time = 0 ∧
    (mergeTrack entry14.track partialVolume20).power = "on" ∧
    (mergeTrack entry14.track partialVolume20).volume = 20 ∧
    (mergeTrack entry14.track partialVolume20).title = none ∧
    (mergeTrack entry14.track partialVolume20).album = none ∧
    (mergeTrack entry14.track partialVolume20).artist = none ∧
    (mergeTrack entry14.track partialVolume20).players = ["14"] :=
  updateZoneTrack_merges_fields registry14 "14" entry14 partialVolume20 rfl

/-- Claim C5: for every player id not present in the registry,
`updateZoneTrack` returns failure, logs the error, leaves the registry
unchanged and performs no broadcast (the effect list is exactly the one error
log). -/
theorem updateZoneTrack_unknown_zone_fails (st : Registry) (id : String) (p : PartialTrack)
    (h : zoneFind st id = none) :
    updateZoneTrack st id p =
      (st, [.logError ("[ZoneManager] Cannot update track: No zone found for player ID: "
        ++ id)], false) := by
  simp [updateZoneTrack, h]

/-- Witness for C5: id `"99"` is not configured in `registry14`, so the update
fails and broadcasts nothing. -/
theorem updateZoneTrack_unknown_zone_fails_witness :
    updateZoneTrack registry14 "99" partialVolume20 =
      (registry14,
       [.logError "[ZoneManager] Cannot update track: No zone found for player ID: 99"],
       false) :=
  updateZoneTrack_unknown_zone_fails registry14 "99" partialVolume20 rfl

/-- Claim C10: for every zone present in the registry, every `updateZoneTrack`
call succeeds and triggers exactly one broadcast, whose payload is the
serialized `{"audio_event": [mergedTrack]}` for the post-merge track — with no
change detection, so this holds for the empty partial update as well (see the
witness). -/
theorem updateZoneTrack_always_broadcasts_once (st : Registry) (id : String) (e : ZoneEntry)
    (p : PartialTrack) (h : zoneFind st id = some e) :
    (updateZoneTrack st id p).2.2 = true ∧
    broadcastsOf (updateZoneTrack st id p).2.1 =
      [.obj [("audio_event", .arr [trackToJson (mergeTrack e.track p)])]] := by
  constructor
  · simp [updateZoneTrack, h]
  · simp [updateZoneTrack, h, broadcastsOf]

/-- Witness for C10: the empty partial update `{}` on zone 14 changes no field
yet still succeeds and broadcasts the (unchanged) track exactly once. -/
theorem updateZoneTrack_always_broadcasts_once_witness :
    (updateZoneTrack registry14 "14" emptyPartial).2.2 = true ∧
    broadcastsOf (updateZoneTrack registry14 "14" emptyPartial).2.1 =
      [.obj [("audio_event", .arr [trackToJson (mergeTrack entry14.track emptyPartial)])]] :=
  updateZoneTrack_always_broadcasts_once registry14 "14" entry14 emptyPartial rfl

/-- Claim C4 (code bug): `sendCommandToZone` with an unknown player id does
log the "no zone found" error, but instead of returning a failure signal it
evaluates `zone.player.backendInstance` on the `[]` not-found sentinel, whose
`.player` is `undefined`, so the call throws a `TypeError` (surfacing as a
rejected promise at the fire-and-forget dispatcher call site); the intended
"No backend instance found" branch is unreachable for this case.  This
theorem evaluates the model at the failing input `playerId = "99"` on an
empty registry. -/
theorem sendCommandToZone_unknown_zone_throws :
    sendCommandToZone cfgA [] "99" "play" "3" =
      ([.logError "[ZoneManager] No zone found for player ID: 99"],
       .thrown "TypeError: Cannot read properties of undefined (reading backendInstance)") :=
  rfl

/-- Claim C8: `broadcastEvent` delivers the payload unmodified to exactly the
currently-open connections (in registration order) and skips every closed
connection; the function is total, so no error is raised for a closed
connection. -/
theorem broadcastEvent_delivers_to_open_connections (conns : List WsConnection)
    (msg : String) :
    broadcastEvent conns msg =
      (conns.filter (fun c => c.connected)).map (fun c => (c.tag, msg)) := by
  simpa using broadcastEvent_go msg conns []

/-- Claim C7: the Beolink adapter's `sendGroupCommand` sends
`sendCommandToZone(id, "groupJoin", masterId)` exactly for the member ids
different from the adapter's own player id — in particular a group-join is
never sent to the master zone itself, for any member list, including lists
repeating the master id. -/
theorem beolink_group_join_skips_master (self : BackendInstance)
    (command type playerid : String) (additionalIDs : List String) :
    zoneCommandsOf (beolinkSendGroupCommand self command type playerid additionalIDs) =
      (additionalIDs.filter (fun id => id ≠ self.playerid)).map
        (fun id => (id, "groupJoin", self.playerid)) := by
  have h := zoneCommandsOf_join_loop self.playerid additionalIDs
  simp only [zoneCommandsOf] at h
  simp [beolinkSendGroupCommand, zoneCommandsOf, List.filterMap_cons,
    List.filterMap_append, h]

/-- Claim C6: `sendGroupCommandToZone` takes the first id of the
comma-separated list as the master and the remaining ids, in order, as the
member list, and invokes the master zone's adapter's `sendGroupCommand` with
exactly that master id and those member ids. -/
theorem sendGroupCommandToZone_master_and_members (cfg : Config) (st : Registry)
    (command type Group : String) (z : ZoneEntry) (b : BackendInstance)
    (hz : zoneFind st ((jsSplit Group ',').headD "") = some z)
    (hb : z.player.backendInstance = some b) :
    groupCallsOf (sendGroupCommandToZone cfg st command type Group).1 =
      [(b, command, type, (jsSplit Group ',').headD "", (jsSplit Group ',').drop 1)] ∧
    (sendGroupCommandToZone cfg st command type Group).2 = .ok () := by
  have hz2 : zoneFind st ((jsSplit Group ',').head?.getD "") = some z := by
    simpa [List.headD_eq_head?_getD] using hz
  constructor
  · cases hp : cfg.paired <;>
      simp [sendGroupCommandToZone, getZoneById, hz2, hb, hp, groupCallsOf]
  · cases hp : cfg.paired <;>
      simp [sendGroupCommandToZone, getZoneById, hz2, hb, hp]

/-- Witness for C6, the specification's example: the id list `"14,14,15"`
yields master `"14"` and members `["14", "15"]` on zone 14's Beolink
adapter. -/
theorem sendGroupCommandToZone_master_and_members_witness :
    groupCallsOf (sendGroupCommandToZone cfgA registry14 "update" "new" "14,14,15").1 =
      [(beoInst14, "update", "new", "14", ["14", "15"])] ∧
    (sendGroupCommandToZone cfgA registry14 "update" "new" "14,14,15").2 = .ok () :=
  sendGroupCommandToZone_master_and_members cfgA registry14 "update" "new" "14,14,15"
    entry14 beoInst14 (by decide) rfl

theorem setupZone_preserves_adapters (env : String → Option String) (st : Registry)
    (player : Player) (hp : EffectiveKindKnown env player.playerid)
    (hst : ∀ id e, zoneFind st id = some e → e.player.backendInstance.isSome = true) :
    ∀ id e, zoneFind (setupZone env st player) id = some e →
      e.player.backendInstance.isSome = true := by
  intro id e he
  unfold setupZone at he
  rw [zoneFind_insertZone] at he
  by_cases hid : id = player.playerid
  · rw [if_pos hid] at he
    cases he
    cases hfb : (!jsTruthy (env ("ZONE_" ++ player.playerid ++ "_BACKEND"))
        || !jsTruthy (env ("ZONE_" ++ player.playerid ++ "_IP"))) with
    | true => rfl
    | false =>
      rw [Bool.or_eq_false_iff] at hfb
      obtain ⟨hb, hi⟩ := hfb
      simp at hb hi
      have hmem := hp hb hi
      cases hbv : env ("ZONE_" ++ player.playerid ++ "_BACKEND") with
      | none => rw [hbv] at hb; cases hb
      | some s =>
          rw [hbv] at hmem hb
          simp only [jsTruthy, decide_eq_true_eq] at hb
          simp only [Option.getD_some] at hmem
          simp only [knownBackendNames, List.mem_cons, List.not_mem_nil, or_false] at hmem
          rcases hmem with hs | hs | hs <;> subst hs <;> simp [createBackend, hbv]
  · rw [if_neg hid] at he
    exact hst id e he

theorem setupZones_adapters_go (env : String → Option String) :
    ∀ (players : List Player) (st : Registry),
      (∀ p ∈ players, EffectiveKindKnown env p.playerid) →
      (∀ id e, zoneFind st id = some e → e.player.backendInstance.isSome = true) →
      ∀ id e, zoneFind (players.foldl (setupZone env) st) id = some e →
        e.player.backendInstance.isSome = true := by
  intro players
  induction players with
  | nil => intro st _ hst id e he; exact hst id e he
  | cons p ps ih =>
      intro st hall hst id e he
      rw [List.foldl_cons] at he
      exact ih (setupZone env st p) (fun q hq => hall q (List.mem_cons_of_mem p hq))
        (setupZone_preserves_adapters env st p (hall p (List.mem_cons_self p ps)) hst)
        id e he

/-- Claim C3 (counterexample): a zone whose environment names the unknown
adapter kind `"BackendUnknown"` (with an address present) is left with a
`null` adapter instance after setup — `createBackend` yields a silent `null`
for an unknown kind instead of a reportable error, so the claim that every
configured zone ends up with a non-null adapter is false. -/
theorem setupZones_unknown_backend_counterexample :
    (zoneFind (setupZones envUnknownKind [player1]) "1").map
      (fun e => e.player.backendInstance.isSome) = some false := by
  decide

/-- Claim C3 (amended): if, for every configured player, the environment
either leaves the zone to the stub fallback (missing or empty backend kind or
address, which `setupZones` replaces by `BackendExample` at `127.0.0.1`) or
names one of the adapter kinds registered in `backendMap`, then after setup
every zone in the registry has a non-null adapter instance.  (Without that
restriction the claim fails: an unknown configured kind produces a silent
`null` adapter — see the counterexample.) -/
theorem setupZones_known_kinds_have_adapters (env : String → Option String)
    (players : List Player) (h : ∀ p ∈ players, EffectiveKindKnown env p.playerid) :
    ∀ id e, zoneFind (setupZones env players) id = some e →
      e.player.backendInstance.isSome = true :=
  setupZones_adapters_go env players [] h (fun _ _ he => by cases he)

/-- Witness for C3 (amended): zone 1 configured with the known kind
`BackendBeolink` receives a non-null adapter instance. -/
theorem setupZones_known_kinds_have_adapters_witness :
    (zoneFind (setupZones envBeolinkKind [player1]) "1").map
      (fun e => e.player.backendInstance.isSome) = some true := by
  have h := setupZones_known_kinds_have_adapters envBeolinkKind [player1]
    (by
      intro p hp
      simp only [List.mem_singleton] at hp
      subst hp
      intro h1 h2
      decide) "1"
  cases he : zoneFind (setupZones envBeolinkKind [player1]) "1" with
  | none => exact absurd he (by decide)
  | some e => simp [h e he]

theorem handleLoxone_unmatched (cfg : Config) (st : Registry) (url : String)
    (h : routeMatched url = false) :
    handleLoxoneCommand cfg st url = unknownCommand url := by
  simp only [routeMatched, Bool.or_eq_false_iff] at h
  obtain ⟨⟨⟨⟨⟨⟨⟨⟨⟨⟨⟨⟨⟨⟨⟨⟨⟨h1, h2⟩, h3⟩, h4⟩, h5⟩, h6⟩, h7⟩, h8⟩, h9⟩, h10⟩, h11⟩, h12⟩, h13⟩, h14⟩, h15⟩, h16⟩, h17⟩, h18⟩ := h
  by_cases hu : (url == "") = true
  · have hu2 : url = "" := by simpa using hu
    subst hu2
    simp [handleLoxoneCommand]
  · simp [handleLoxoneCommand, hu, h1, h2, h3, h4, h5, h6, h7, h8, h9, h10, h11, h12, h13,
      h14, h15, h16, h17, h18]

/-- Claim C9 (counterexample): the empty request matches no route, yet the
fallback does not produce an envelope — `emptyCommand` finds no
lowercase-starting segment in `""` and the JS function returns `undefined`
(modelled `none`), not an acknowledgement envelope. -/
theorem fallback_envelope_counterexample :
    routeMatched "" = false ∧ hasLowerSeg "" = false ∧
    ¬ IsEnvelopeFor "" (handleLoxoneCommand cfgA [] "") := by
  refine ⟨rfl, rfl, ?_⟩
  intro hEnv
  obtain ⟨nm, p, hp2⟩ := hEnv
  rw [show handleLoxoneCommand cfgA [] "" = none from rfl] at hp2
  cases hp2

/-- Claim C9 (amended): every request that matches no literal or pattern
route and whose path contains at least one lowercase-starting segment is
answered with the generic acknowledgement envelope (result payload `null`,
`command` echoing the request); no error is raised.  (For unmatched requests
with no lowercase-starting segment — including the empty string — the
dispatcher returns the JS `undefined` instead of an envelope, see the
counterexample.) -/
theorem fallback_envelope_for_lowercase_segments (cfg : Config) (st : Registry)
    (url : String) (h : routeMatched url = false) (hl : hasLowerSeg url = true) :
    IsEnvelopeFor url (handleLoxoneCommand cfg st url) := by
  rw [handleLoxone_unmatched cfg st url h]
  obtain ⟨nm, hnm⟩ := findLastLower_isSome_of_any (jsSplit url '/') hl
  exact ⟨nm, .null, by simp [unknownCommand, emptyCommand, hnm, response]⟩

/-- Witness for C9 (amended): `"audio/cfg/unknowncmd"` matches no route and is
answered with the `unknowncmd_result` envelope echoing the request. -/
theorem fallback_envelope_for_lowercase_segments_witness :
    IsEnvelopeFor "audio/cfg/unknowncmd" (handleLoxoneCommand cfgA [] "audio/cfg/unknowncmd") :=
  fallback_envelope_for_lowercase_segments cfgA [] "audio/cfg/unknowncmd"
    (by decide) (by decide)

/-- Claim C1 (counterexample): two dispatcher routes named by the claim break
the envelope contract.  The literal `audio/cfg/miniservertime` route returns a
plain text string (no JSON envelope at all), and the zone-command pattern
route (`audio/<zoneId>/<command>/<param>`, here `audio/5/volume/3`) returns a
hard-coded object whose only `_result` field is `dgroup_update_result` and
whose `command` field is the literal text `{trimmedUrl}` — a template literal
missing its `$` — rather than the original request string.  The hand-built
`secure/info/pairing`, `secure/hello` and `secure/init` responses also carry
no `_result` field at all. -/
theorem envelope_claim_counterexample :
    ¬ IsEnvelopeFor "audio/cfg/miniservertime"
        (handleLoxoneCommand cfgA [] "audio/cfg/miniservertime") ∧
    ¬ IsEnvelopeFor "audio/5/volume/3" (handleLoxoneCommand cfgA [] "audio/5/volume/3") ∧
    ¬ IsEnvelopeFor "secure/info/pairing"
        (handleLoxoneCommand cfgA [] "secure/info/pairing") ∧
    ¬ IsEnvelopeFor "secure/hello/123/abc"
        (handleLoxoneCommand cfgA [] "secure/hello/123/abc") ∧
    ¬ IsEnvelopeFor "secure/init/xyz" (handleLoxoneCommand cfgA [] "secure/init/xyz") := by
  refine ⟨?_, ?_, ?_, ?_, ?_⟩
  · intro hEnv
    obtain ⟨nm, p, hp2⟩ := hEnv
    rw [show handleLoxoneCommand cfgA [] "audio/cfg/miniservertime"
        = some (.text "Handled Miniserver time request with URL: audio/cfg/miniservertime")
        from rfl] at hp2
    exact HttpResponse.noConfusion (Option.some.inj hp2)
  · intro hEnv
    obtain ⟨nm, p, hp2⟩ := hEnv
    rw [show handleLoxoneCommand cfgA [] "audio/5/volume/3"
        = some (.json [("dgroup_update_result",
            .obj [("id", .str "cc131c8a-a368-f320-da6d-2568b7314e8c")]),
            ("command", .str "{trimmedUrl}")]) from rfl] at hp2
    simp at hp2
  · intro hEnv
    obtain ⟨nm, p, hp2⟩ := hEnv
    rw [show handleLoxoneCommand cfgA [] "secure/info/pairing"
        = some (.json [("command", .str COMMAND_SECURE_INFO_PAIRING), ("error", .num (-84)),
            ("master", .str cfgA.miniserverMac), ("peers", .arr [])]) from rfl] at hp2
    simp at hp2
  · intro hEnv
    obtain ⟨nm, p, hp2⟩ := hEnv
    rw [show handleLoxoneCommand cfgA [] "secure/hello/123/abc"
        = some (.json [("command", .str COMMAND_SECURE_HELLO), ("error", .num 0),
            ("public_key", .str "abc")]) from rfl] at hp2
    simp at hp2
  · intro hEnv
    obtain ⟨nm, p, hp2⟩ := hEnv
    rw [show handleLoxoneCommand cfgA [] "secure/init/xyz" = some handleSecureInit
        from rfl] at hp2
    simp [handleSecureInit] at hp2

/-- Claim C1 (amended): every response produced by a route that is not one of
the hand-crafted ones (`audio/cfg/miniservertime`, `secure/info/pairing`,
`secure/hello`, `secure/init`, and the zone-command pattern route) is a
protocol envelope: a JSON object with exactly one `"<name>_result"` field
holding the payload and a `"command"` field echoing the exact original
request string. -/
theorem envelope_for_generic_routes (cfg : Config) (st : Registry) (url : String)
    (h : handcraftedRoute url = false) (r : HttpResponse)
    (hr : handleLoxoneCommand cfg st url = some r) :
    IsEnvelopeFor url (some r) := by
  simp only [handcraftedRoute, Bool.or_eq_false_iff] at h
  obtain ⟨⟨⟨⟨h1, h2⟩, h3⟩, h4⟩, h5⟩ := h
  by_cases hu : (url == "") = true
  · have hu2 : url = "" := by simpa using hu
    subst hu2
    have hnone : (none : Option HttpResponse) = some r := hr
    cases hnone
  · simp only [handleLoxoneCommand] at hr
    rw [if_neg (by simp [hu])] at hr
    rw [if_neg (by simp [h1])] at hr
    rw [if_neg (by simp [h2])] at hr
    rw [if_neg (by simp [h3])] at hr
    by_cases c4 : (jsStartsWith url COMMAND_SECURE_AUTHENTICATE) = true
    · rw [if_pos c4] at hr
      exact envelope_of_emptyCommand url _ r hr
    · rw [if_neg c4] at hr
      rw [if_neg (by simp [h4])] at hr
      by_cases c6 : (jsStartsWith url COMMAND_AUDIO_CFG_READY) = true
      · rw [if_pos c6] at hr
        exact envelope_of_emptyCommand url _ r hr
      · rw [if_neg c6] at hr
        by_cases c7 : (jsStartsWith url COMMAND_AUDIO_CFG_GETCONFIG) = true
        · rw [if_pos c7] at hr
          exact envelope_of_emptyCommand url _ r hr
        · rw [if_neg c7] at hr
          by_cases c8 : (jsStartsWith url COMMAND_AUDIO_CFG_SETCONFIG) = true
          · rw [if_pos c8] at hr
            exact envelope_of_emptyCommand url _ r hr
          · rw [if_neg c8] at hr
            by_cases c9 : (jsStartsWith url AUDIO_GROUP) = true
            · rw [if_pos c9] at hr
              exact envelope_of_emptyCommand url _ r hr
            · rw [if_neg c9] at hr
              rw [if_neg (by simp [h5])] at hr
              by_cases c11 : (getKeyTest url) = true
              · rw [if_pos c11] at hr
                exact envelope_of_emptyCommand url _ r hr
              · rw [if_neg c11] at hr
                by_cases c12 : (getMediaFolderTest url) = true
                · rw [if_pos c12] at hr
                  exact envelope_of_response url "getmediafolder" _ r hr
                · rw [if_neg c12] at hr
                  by_cases c13 : (getPlaylistsTest url) = true
                  · rw [if_pos c13] at hr
                    exact envelope_of_response url "getplaylists2" _ r hr
                  · rw [if_neg c13] at hr
                    by_cases c14 : (getRadiosTest url) = true
                    · rw [if_pos c14] at hr
                      exact envelope_of_response url "getradios" _ r hr
                    · rw [if_neg c14] at hr
                      by_cases c15 : (getRoomFavsTest url) = true
                      · rw [if_pos c15] at hr
                        exact envelope_of_response url "getroomfavs" _ r hr
                      · rw [if_neg c15] at hr
                        by_cases c16 : (getSyncedPlayersTest url) = true
                        · rw [if_pos c16] at hr
                          exact envelope_of_emptyCommand url _ r hr
                        · rw [if_neg c16] at hr
                          by_cases c17 : (playerStatusTest url) = true
                          · rw [if_pos c17] at hr
                            exact envelope_of_response url "status" _ r hr
                          · rw [if_neg c17] at hr
                            by_cases c18 : (getQueueTest url) = true
                            · rw [if_pos c18] at hr
                              exact envelope_of_response url "getqueue" _ r hr
                            · rw [if_neg c18] at hr
                              exact envelope_of_emptyCommand url _ r hr

/-- Witness for C1 (amended): `"audio/cfg/getradios"` is not hand-crafted and
its response is the `getradios_result` envelope echoing the request. -/
theorem envelope_for_generic_routes_witness :
    IsEnvelopeFor "audio/cfg/getradios"
      (some (response "audio/cfg/getradios" "getradios"
        (.arr
          [.obj
            [("cmd", .str "presets")
            , ("name", .str "Radio Favorieten")
            , ("icon", .str "http://10.7.10.151:7091/imgcache/?item=radiomusic&viaproxy=170ab4fc-0261-9bac-ffffc581ef707fce")
            , ("root", .str "start")]
          , .obj
            [("cmd", .str "all")
            , ("name", .str "Alles")
            , ("icon", .str "http://10.7.10.151:7091/imgcache/?item=radioworld&viaproxy=170ab4fc-0261-9bac-ffffc581ef707fce")
            , ("root", .str "start")]]))) :=
  envelope_for_generic_routes cfgA [] "audio/cfg/getradios" (by decide) _ rfl
